import Mathlib

/-!
Shallow embedding of `src/main.py` (Altaaaf/Proxy-Checker) and proofs about it.

The Python program is a proxy checker built around three operations of the
`ProxyChecker` class:

* `read_proxy_file` : reads an input file, keeps the stripped lines that split
  on a colon into exactly 2 or exactly 4 fields, deduplicates them with
  `list(set(...))`, and raises `FileNotFoundError` / `ValueError` on a missing
  file or on zero valid lines, while any other open/read exception
  (permission, directory, decode) matches no `except` clause and propagates
  unclassified;
* `save_proxy` : appends one line per good proxy to the output file;
* `check_proxy` : a `while retry_count <= max_retry` loop; each iteration
  acquires the semaphore, parses the descriptor, maps the protocol tag, runs
  one probe, and classifies the outcome; a `finally` block increments the
  counters after every iteration.

Files are modelled as lists of lines.  Python `str.strip` / `str.split` are
re-implemented structurally on the character list so that all definitions
reduce in the kernel.  The nondeterministic outcome of one network probe is an
oracle `Nat -> ProbeResult` indexed by the attempt number; everything the
control flow does with that outcome (semaphore acquire/release, prints,
sleeps, counter updates, file appends) is recorded in an event trace.
-/

namespace ProxyChecker

/-- Drop leading whitespace characters from a character list.  Helper for the
model of Python `str.strip()`. -/
def dropLeadingWs : List Char → List Char
  | [] => []
  | c :: cs => if c.isWhitespace then dropLeadingWs cs else c :: cs

/-- Model of Python `line.strip()` (src/main.py line 83): remove leading and
trailing whitespace.  (Python also strips `\x0b`/`\x0c`; the claims only ever
involve ordinary blanks, tabs and newlines, which `Char.isWhitespace`
covers.) -/
def pyStrip (s : String) : String :=
  String.mk (dropLeadingWs (dropLeadingWs s.data.reverse).reverse)

/-- Split a character list at every occurrence of `sep`, Python
`str.split(sep)` style: no merging of adjacent separators, and the empty
list yields one empty field. -/
def splitCharsOn (sep : Char) : List Char → List (List Char)
  | [] => [[]]
  | c :: cs =>
    if c = sep then [] :: splitCharsOn sep cs
    else
      match splitCharsOn sep cs with
      | [] => [[c]]
      | h :: t => (c :: h) :: t

/-- Model of Python `s.split(sep)` for a one-character separator
(src/main.py lines 85 and 120). -/
def pySplit (sep : Char) (s : String) : List String :=
  (splitCharsOn sep s.data).map String.mk

/-- Model of Python `sep in s` for a one-character needle
(src/main.py line 84). -/
def containsChar (sep : Char) (s : String) : Bool :=
  s.data.any (fun c => decide (c = sep))

/-- The acceptance test applied to a stripped line by `read_proxy_file`
(src/main.py lines 84-87): the line contains a colon and splits into exactly
2 or exactly 4 colon-separated fields. -/
def validProxyLine (line : String) : Bool :=
  containsChar ':' line &&
    ((pySplit ':' line).length == 2 || (pySplit ':' line).length == 4)

/-- What opening, decoding and iterating the input file does, before any
line parsing: it yields the file's lines, or raises `FileNotFoundError`,
or raises some other OS or decode error the code does not name —
`PermissionError`, `IsADirectoryError`, `UnicodeDecodeError`, and the like. -/
inductive FileOutcome
  | lines (raw : List String)
  | missing
  | otherIOError
deriving DecidableEq

/-- How `read_proxy_file` can fail.  Its `except` clauses (src/main.py lines
92-96) catch and re-raise exactly two exception classes: `FileNotFoundError`
(`notFound`) and `ValueError` ("The file does not contain any valid
proxies.", `emptyOrInvalid`).  Every other exception raised while opening or
reading the file — permission denied, a directory path, undecodable bytes —
matches neither clause and propagates out of the function unclassified
(`uncaught`). -/
inductive ReadError
  | notFound
  | emptyOrInvalid
  | uncaught
deriving DecidableEq

/-- Model of `ProxyChecker.read_proxy_file` (src/main.py lines 64-96).  The
input describes what the file system does: the file's lines when the open
and the reads succeed, `missing` for `FileNotFoundError`, `otherIOError`
for any other open/read/decode exception — the `try` wraps the whole body,
and only `FileNotFoundError` and `ValueError` have `except` clauses, so an
`otherIOError` escapes unclassified.  Python's `list(set(proxies))` returns
the distinct survivors in unspecified order; it is modelled by `List.dedup`,
which agrees with it on membership, on freedom from duplicates and on
cardinality — the only aspects the specification speaks about. -/
def read_proxy_file (file : FileOutcome) : Except ReadError (List String) :=
  match file with
  | FileOutcome.missing => Except.error ReadError.notFound
  | FileOutcome.otherIOError => Except.error ReadError.uncaught
  | FileOutcome.lines rawLines =>
    let proxies := (rawLines.map pyStrip).filter validProxyLine
    if proxies.isEmpty then Except.error ReadError.emptyOrInvalid
    else Except.ok proxies.dedup

/-- Model of `ProxyChecker.save_proxy` (src/main.py lines 44-62): append the
line `f"{proxy}\n"` to the output file, i.e. append one line holding exactly
the descriptor string to the file's line list. -/
def save_proxy (outputLines : List String) (proxy : String) : List String :=
  outputLines ++ [proxy]

/-- The constructor arguments of `ProxyChecker.__init__` that `check_proxy`
reads (src/main.py lines 15-29). -/
structure Config where
  request_timeout : Nat
  max_retry : Nat
  retry_delay : Nat
deriving DecidableEq

/-- The `aiohttp_socks.ProxyType` values `check_proxy` selects from
(src/main.py lines 127-133). -/
inductive AioProxyType
  | HTTP
  | SOCKS4
  | SOCKS5
deriving DecidableEq

/-- The protocol-tag dispatch of `check_proxy` (src/main.py lines 127-135):
"HTTP" and "HTTPS" map to `ProxyType.HTTP`, "SOCKS4" and "SOCKS5" to their
own tags, and anything else leaves `aio_proxy_type` as `None`, which the code
turns into `raise ValueError("Invalid proxy type")`. -/
def aioProxyTypeOf (proxy_type : String) : Option AioProxyType :=
  if proxy_type = "HTTP" ∨ proxy_type = "HTTPS" then some AioProxyType.HTTP
  else if proxy_type = "SOCKS4" then some AioProxyType.SOCKS4
  else if proxy_type = "SOCKS5" then some AioProxyType.SOCKS5
  else none

/-- What one network probe (the `session.get` of src/main.py lines 146-151)
does once it is reached: deliver an HTTP status, or raise
`asyncio.TimeoutError`, `aiohttp.ClientError`, or some other exception.
One such result per attempt index is supplied by an oracle — the network's
behaviour is the only nondeterminism of the program. -/
inductive ProbeResult
  | status (code : Nat)
  | timeoutError
  | clientError
  | otherError
deriving DecidableEq

/-- The exception classes an attempt can end in, as told apart by the
`except` clauses of src/main.py lines 162-174.  `indexError` is the
`IndexError` from `proxy_split[1]` when the descriptor has no colon
(caught by `except Exception`); `invalidType` is the
`ValueError("Invalid proxy type")` (caught by `except (ClientError,
ValueError)`); the rest mirror `ProbeResult`. -/
inductive ErrKind
  | indexError
  | invalidType
  | timeoutError
  | clientError
  | otherError
deriving DecidableEq

/-- Whether the probe (`session.get`) was actually reached before the
exception was raised: parsing and protocol dispatch happen first, so their
errors precede any network activity. -/
def ErrKind.probeReached : ErrKind → Bool
  | ErrKind.timeoutError => true
  | ErrKind.clientError => true
  | ErrKind.otherError => true
  | ErrKind.indexError => false
  | ErrKind.invalidType => false

/-- How one iteration of the `while` loop of `check_proxy` ends:
`success` (status 200: save the proxy, bump `good_proxies`, `return`),
`badStatus` (any other status: print failure and `return`), or
`errRetry` (an exception: the matching `except` clause bumps `retry_count`
and sleeps, and the loop continues). -/
inductive AttemptOutcome
  | success
  | badStatus (code : Nat)
  | errRetry (e : ErrKind)
deriving DecidableEq

/-- An outcome is terminal exactly when the iteration executed `return`
(src/main.py line 161): both status branches return; every exception branch
retries. -/
def AttemptOutcome.isTerminal : AttemptOutcome → Bool
  | AttemptOutcome.success => true
  | AttemptOutcome.badStatus _ => true
  | AttemptOutcome.errRetry _ => false

/-- Classify one iteration of the loop body (src/main.py lines 118-161):
`proxy.split(":")` is indexed at 1 (IndexError when there is no colon),
then the protocol tag is dispatched (ValueError when unknown), and only
then the probe runs and its result is classified
(status 200 / other status / exception). -/
def attemptOutcome (proxy proxy_type : String) (res : ProbeResult) : AttemptOutcome :=
  if (pySplit ':' proxy).length < 2 then AttemptOutcome.errRetry ErrKind.indexError
  else
    match aioProxyTypeOf proxy_type with
    | none => AttemptOutcome.errRetry ErrKind.invalidType
    | some _ =>
      match res with
      | ProbeResult.status c =>
        if c = 200 then AttemptOutcome.success else AttemptOutcome.badStatus c
      | ProbeResult.timeoutError => AttemptOutcome.errRetry ErrKind.timeoutError
      | ProbeResult.clientError => AttemptOutcome.errRetry ErrKind.clientError
      | ProbeResult.otherError => AttemptOutcome.errRetry ErrKind.otherError

/-- Observable steps of `check_proxy`, in program order.  `acquire`/`release`
are the semaphore's `__aenter__`/`__aexit__`; `probe` is the `session.get`
being issued; `reportSuccess`/`reportFailure` are the per-attempt prints;
`sleepRetry` is `await asyncio.sleep(retry_delay)`; `accounting t g` is the
`finally` block running with `total_proxies_checked = t` and
`good_proxies = g` after its increment; `giveUp` is the
"exceeded maximum retries" print after the loop. -/
inductive Event
  | acquire
  | release
  | probe
  | reportSuccess
  | reportFailure
  | sleepRetry
  | accounting (total good : Nat)
  | giveUp
deriving DecidableEq

/-- The mutable state `check_proxy` touches: the two instance counters, the
output file (as its line list), and the trace of events so far. -/
structure CheckState where
  total_proxies_checked : Nat
  good_proxies : Nat
  good_proxy_file : List String
  events : List Event
deriving DecidableEq

/-- The events of one loop iteration, in source order.

* success: the semaphore is entered, the probe runs, `[SUCCESS]` is printed
  and the proxy saved inside the session block, then `return` unwinds the
  `async with` (releasing the permit) and the `finally` accounting runs;
* bad status: same shape with `[FAILURE]` printed and nothing saved;
* exception: the `async with` unwinds first (releasing the permit), then the
  `except` clause prints `[FAILURE]` and sleeps `retry_delay`, then the
  `finally` accounting runs — the probe appears only when the exception was
  raised by the network call itself. -/
def attemptEvents (o : AttemptOutcome) (total good : Nat) : List Event :=
  match o with
  | AttemptOutcome.success =>
      [Event.acquire, Event.probe, Event.reportSuccess, Event.release,
        Event.accounting total good]
  | AttemptOutcome.badStatus _ =>
      [Event.acquire, Event.probe, Event.reportFailure, Event.release,
        Event.accounting total good]
  | AttemptOutcome.errRetry e =>
      if e.probeReached then
        [Event.acquire, Event.probe, Event.release, Event.reportFailure,
          Event.sleepRetry, Event.accounting total good]
      else
        [Event.acquire, Event.release, Event.reportFailure,
          Event.sleepRetry, Event.accounting total good]

/-- Effect of one loop iteration on the state: `good_proxies` is incremented
and `save_proxy` called exactly on the success branch (src/main.py lines
153-157), `total_proxies_checked` is incremented unconditionally by the
`finally` block (line 176), and the iteration's events are appended. -/
def applyAttempt (proxy : String) (o : AttemptOutcome) (st : CheckState) : CheckState :=
  let total' := st.total_proxies_checked + 1
  let good' := if o = AttemptOutcome.success then st.good_proxies + 1 else st.good_proxies
  { total_proxies_checked := total'
    good_proxies := good'
    good_proxy_file :=
      if o = AttemptOutcome.success then save_proxy st.good_proxy_file proxy
      else st.good_proxy_file
    events := st.events ++ attemptEvents o total' good' }

/-- The `while retry_count <= max_retry` loop of `check_proxy` (src/main.py
lines 117-182).  `fuel` is the number of loop iterations the guard still
allows (`max_retry + 1 - retry_count`), `k` is the current attempt index
(equal to `retry_count`, which is incremented once per failed attempt).
When the guard fails the loop exits and prints "exceeded maximum retries";
a terminal iteration returns from the function instead. -/
def checkLoop (proxy proxy_type : String) (oracle : Nat → ProbeResult) :
    Nat → Nat → CheckState → CheckState
  | _, 0, st => { st with events := st.events ++ [Event.giveUp] }
  | k, fuel + 1, st =>
    let o := attemptOutcome proxy proxy_type (oracle k)
    let st' := applyAttempt proxy o st
    if o.isTerminal then st' else checkLoop proxy proxy_type oracle (k + 1) fuel st'

/-- The state a fresh `ProxyChecker` instance starts a run with: both
counters zero (src/main.py lines 30-31), output file empty (created fresh,
lines 34-38), nothing observed yet. -/
def initState : CheckState :=
  { total_proxies_checked := 0, good_proxies := 0, good_proxy_file := [], events := [] }

/-- Model of `ProxyChecker.check_proxy` (src/main.py lines 98-182) for one
descriptor: run the retry loop from the fresh state with the full retry
budget.  `oracle k` is what the network does on attempt `k`. -/
def check_proxy (cfg : Config) (proxy proxy_type : String)
    (oracle : Nat → ProbeResult) : CheckState :=
  checkLoop proxy proxy_type oracle 0 (cfg.max_retry + 1) initState

/-- Recognizer for `accounting` events. -/
def Event.isAccounting : Event → Bool
  | Event.accounting _ _ => true
  | _ => false

/-- Recognizer for `probe` events. -/
def Event.isProbe : Event → Bool
  | Event.probe => true
  | _ => false

/-- Recognizer for `sleepRetry` events. -/
def Event.isSleep : Event → Bool
  | Event.sleepRetry => true
  | _ => false

/-- Recognizer for `acquire` events. -/
def Event.isAcquire : Event → Bool
  | Event.acquire => true
  | _ => false

/-- Recognizer for `giveUp` events. -/
def Event.isGiveUp : Event → Bool
  | Event.giveUp => true
  | _ => false

/-- Number of loop iterations (attempts) recorded in a trace: the `finally`
block runs exactly once per iteration. -/
def numAttempts (st : CheckState) : Nat := st.events.countP Event.isAccounting

/-- Number of network probes actually issued in a trace. -/
def numProbes (st : CheckState) : Nat := st.events.countP Event.isProbe

/-- Number of `retry_delay` sleeps in a trace. -/
def numSleeps (st : CheckState) : Nat := st.events.countP Event.isSleep

/-- Number of semaphore acquisitions in a trace. -/
def numAcquires (st : CheckState) : Nat := st.events.countP Event.isAcquire

/-- Number of terminal "exceeded maximum retries" reports in a trace. -/
def numGiveUps (st : CheckState) : Nat := st.events.countP Event.isGiveUp

/-- Model of Python's built-in `round` on an exact rational: round half to
even ("banker's rounding"). -/
def pyRound (q : ℚ) : ℤ :=
  if q - ⌊q⌋ < 1 / 2 then ⌊q⌋
  else if 1 / 2 < q - ⌊q⌋ then ⌊q⌋ + 1
  else if ⌊q⌋ % 2 = 0 then ⌊q⌋ else ⌊q⌋ + 1

/-- Model of the rate computation of the `finally` block (src/main.py lines
177-178): `round(total_proxies_checked / ((perf_counter() - start_time) /
60))`.  The elapsed seconds are an exact rational here; real floats differ
from rationals only in rounding, not in the division-by-zero behaviour the
claim is about.  Python raises `ZeroDivisionError` when the divisor is zero;
the code performs the division unconditionally, so the zero case is an
`Except.error`, which in the program is an exception propagating out of the
`finally` block — not a reported rate. -/
def proxies_checked_per_minute (total : Nat) (elapsed_seconds : ℚ) : Except String ℤ :=
  if elapsed_seconds / 60 = 0 then Except.error "ZeroDivisionError: float division by zero"
  else Except.ok (pyRound ((total : ℚ) / (elapsed_seconds / 60)))

/-- Semaphore balance of a trace: the permit depth after replaying all
acquire/release events starting from depth `d`. -/
def depthAfter : List Event → Nat → Nat
  | [], d => d
  | Event.acquire :: rest, d => depthAfter rest (d + 1)
  | Event.release :: rest, d => depthAfter rest (d - 1)
  | _ :: rest, d => depthAfter rest d

/-- Replay a trace from permit depth `d`, checking that every `release`
matches an earlier `acquire` and that every `sleepRetry` happens with the
permit NOT held (depth zero).  This is the shape `check_proxy` actually
produces: the permit is given back when the attempt's `async with` block
unwinds, before the inter-retry sleep. -/
def sleepsUnlocked : List Event → Nat → Bool
  | [], _ => true
  | Event.acquire :: rest, d => sleepsUnlocked rest (d + 1)
  | Event.release :: rest, d => decide (0 < d) && sleepsUnlocked rest (d - 1)
  | Event.sleepRetry :: rest, d => decide (d = 0) && sleepsUnlocked rest d
  | _ :: rest, d => sleepsUnlocked rest d

/-- Replay a trace from permit depth `d` and check that every `sleepRetry`
happens with the permit HELD (depth positive) — the reading claim C7 takes
of the scheduler's behaviour. -/
def heldDuringSleeps : List Event → Nat → Bool
  | [], _ => true
  | Event.acquire :: rest, d => heldDuringSleeps rest (d + 1)
  | Event.release :: rest, d => heldDuringSleeps rest (d - 1)
  | Event.sleepRetry :: rest, d => decide (0 < d) && heldDuringSleeps rest d
  | _ :: rest, d => heldDuringSleeps rest d

/-- The property claimed of the scheduler: one single permit acquisition per
descriptor, held across the whole retry sequence, every retry sleep
happening while the permit is held. -/
def permitHeldContinuously (evs : List Event) : Bool :=
  decide (evs.countP Event.isAcquire ≤ 1) && heldDuringSleeps evs 0

/-! ## Basic lemmas about one attempt's event block -/

lemma checkLoop_zero (proxy proxy_type : String) (oracle : Nat → ProbeResult)
    (k : Nat) (st : CheckState) :
    checkLoop proxy proxy_type oracle k 0 st =
      { st with events := st.events ++ [Event.giveUp] } := rfl

lemma checkLoop_succ (proxy proxy_type : String) (oracle : Nat → ProbeResult)
    (k n : Nat) (st : CheckState) :
    checkLoop proxy proxy_type oracle k (n + 1) st =
      (if (attemptOutcome proxy proxy_type (oracle k)).isTerminal
        then applyAttempt proxy (attemptOutcome proxy proxy_type (oracle k)) st
        else checkLoop proxy proxy_type oracle (k + 1) n
          (applyAttempt proxy (attemptOutcome proxy proxy_type (oracle k)) st)) := rfl

lemma countP_attemptEvents_accounting (o : AttemptOutcome) (t g : Nat) :
    (attemptEvents o t g).countP Event.isAccounting = 1 := by
  cases o with
  | success => simp [attemptEvents, List.countP_cons, Event.isAccounting]
  | badStatus c => simp [attemptEvents, List.countP_cons, Event.isAccounting]
  | errRetry e =>
    cases he : e.probeReached <;>
      simp [attemptEvents, he, List.countP_cons, Event.isAccounting]

lemma countP_attemptEvents_acquire (o : AttemptOutcome) (t g : Nat) :
    (attemptEvents o t g).countP Event.isAcquire = 1 := by
  cases o with
  | success => simp [attemptEvents, List.countP_cons, Event.isAcquire]
  | badStatus c => simp [attemptEvents, List.countP_cons, Event.isAcquire]
  | errRetry e =>
    cases he : e.probeReached <;>
      simp [attemptEvents, he, List.countP_cons, Event.isAcquire]

lemma countP_attemptEvents_sleep (o : AttemptOutcome) (t g : Nat) :
    (attemptEvents o t g).countP Event.isSleep = if o.isTerminal then 0 else 1 := by
  cases o with
  | success => simp [attemptEvents, AttemptOutcome.isTerminal, List.countP_cons, Event.isSleep]
  | badStatus c => simp [attemptEvents, AttemptOutcome.isTerminal, List.countP_cons, Event.isSleep]
  | errRetry e =>
    cases he : e.probeReached <;>
      simp [attemptEvents, AttemptOutcome.isTerminal, he, List.countP_cons, Event.isSleep]

lemma countP_attemptEvents_probe (o : AttemptOutcome) (t g : Nat) :
    (attemptEvents o t g).countP Event.isProbe =
      (match o with
        | AttemptOutcome.errRetry e => if e.probeReached then 1 else 0
        | _ => 1) := by
  cases o with
  | success => simp [attemptEvents, List.countP_cons, Event.isProbe]
  | badStatus c => simp [attemptEvents, List.countP_cons, Event.isProbe]
  | errRetry e =>
    cases he : e.probeReached <;>
      simp [attemptEvents, he, List.countP_cons, Event.isProbe]

lemma countP_attemptEvents_probe_le (o : AttemptOutcome) (t g : Nat) :
    (attemptEvents o t g).countP Event.isProbe ≤ 1 := by
  cases o with
  | success => simp [attemptEvents, List.countP_cons, Event.isProbe]
  | badStatus c => simp [attemptEvents, List.countP_cons, Event.isProbe]
  | errRetry e =>
    cases he : e.probeReached <;>
      simp [attemptEvents, he, List.countP_cons, Event.isProbe]

lemma countP_attemptEvents_giveUp (o : AttemptOutcome) (t g : Nat) :
    (attemptEvents o t g).countP Event.isGiveUp = 0 := by
  cases o with
  | success => simp [attemptEvents, List.countP_cons, Event.isGiveUp]
  | badStatus c => simp [attemptEvents, List.countP_cons, Event.isGiveUp]
  | errRetry e =>
    cases he : e.probeReached <;>
      simp [attemptEvents, he, List.countP_cons, Event.isGiveUp]

lemma accounting_mem_attemptEvents {o : AttemptOutcome} {t g t' g' : Nat}
    (h : Event.accounting t' g' ∈ attemptEvents o t g) : t' = t ∧ g' = g := by
  cases o with
  | success => simp [attemptEvents] at h; exact h
  | badStatus c => simp [attemptEvents] at h; exact h
  | errRetry e =>
    cases he : e.probeReached <;> rw [attemptEvents] at h <;> simp [he] at h <;> exact h

lemma giveUp_not_mem_attemptEvents (o : AttemptOutcome) (t g : Nat) :
    Event.giveUp ∉ attemptEvents o t g := by
  cases o with
  | success => simp [attemptEvents]
  | badStatus c => simp [attemptEvents]
  | errRetry e => cases he : e.probeReached <;> simp [attemptEvents, he]

lemma depthAfter_append (a b : List Event) (d : Nat) :
    depthAfter (a ++ b) d = depthAfter b (depthAfter a d) := by
  induction a generalizing d with
  | nil => rfl
  | cons e rest ih => cases e <;> simp [depthAfter, ih]

lemma sleepsUnlocked_append (a b : List Event) (d : Nat) :
    sleepsUnlocked (a ++ b) d =
      (sleepsUnlocked a d && sleepsUnlocked b (depthAfter a d)) := by
  induction a generalizing d with
  | nil => simp [sleepsUnlocked, depthAfter]
  | cons e rest ih => cases e <;> simp [sleepsUnlocked, depthAfter, ih, Bool.and_assoc]

lemma depthAfter_attemptEvents (o : AttemptOutcome) (t g : Nat) :
    depthAfter (attemptEvents o t g) 0 = 0 := by
  cases o with
  | success => simp [attemptEvents, depthAfter]
  | badStatus c => simp [attemptEvents, depthAfter]
  | errRetry e => cases he : e.probeReached <;> simp [attemptEvents, he, depthAfter]

lemma sleepsUnlocked_attemptEvents (o : AttemptOutcome) (t g : Nat) :
    sleepsUnlocked (attemptEvents o t g) 0 = true := by
  cases o with
  | success => simp [attemptEvents, sleepsUnlocked]
  | badStatus c => simp [attemptEvents, sleepsUnlocked]
  | errRetry e => cases he : e.probeReached <;> simp [attemptEvents, he, sleepsUnlocked]

lemma not_success_of_not_terminal {o : AttemptOutcome} (h : o.isTerminal = false) :
    o ≠ AttemptOutcome.success := by
  cases o <;> simp [AttemptOutcome.isTerminal] at h ⊢

/-! ## Invariants of the retry loop, by induction on the remaining budget -/

lemma checkLoop_count_le (proxy proxy_type : String) (oracle : Nat → ProbeResult)
    (p : Event → Bool) (hblock : ∀ o t g, (attemptEvents o t g).countP p ≤ 1)
    (hg : p Event.giveUp = false) :
    ∀ fuel k st,
      ((checkLoop proxy proxy_type oracle k fuel st).events).countP p ≤
        st.events.countP p + fuel := by
  intro fuel
  induction fuel with
  | zero =>
    intro k st
    rw [checkLoop_zero]
    simp [List.countP_append, List.countP_cons, hg]
  | succ n ih =>
    intro k st
    rw [checkLoop_succ]
    have hb := hblock (attemptOutcome proxy proxy_type (oracle k))
      (st.total_proxies_checked + 1)
      (if attemptOutcome proxy proxy_type (oracle k) = AttemptOutcome.success
        then st.good_proxies + 1 else st.good_proxies)
    cases ht : (attemptOutcome proxy proxy_type (oracle k)).isTerminal with
    | true =>
      rw [if_pos rfl]
      simp only [applyAttempt, List.countP_append]
      omega
    | false =>
      simp only [Bool.false_eq_true, if_false]
      have hrec := ih (k + 1)
        (applyAttempt proxy (attemptOutcome proxy proxy_type (oracle k)) st)
      simp only [applyAttempt, List.countP_append] at hrec ⊢
      omega

lemma checkLoop_count_mono (proxy proxy_type : String) (oracle : Nat → ProbeResult)
    (p : Event → Bool) :
    ∀ fuel k st,
      st.events.countP p ≤ ((checkLoop proxy proxy_type oracle k fuel st).events).countP p := by
  intro fuel
  induction fuel with
  | zero =>
    intro k st
    rw [checkLoop_zero]
    simp [List.countP_append]
  | succ n ih =>
    intro k st
    rw [checkLoop_succ]
    cases ht : (attemptOutcome proxy proxy_type (oracle k)).isTerminal with
    | true =>
      rw [if_pos rfl]
      simp [applyAttempt, List.countP_append]
    | false =>
      simp only [Bool.false_eq_true, if_false]
      have hrec := ih (k + 1)
        (applyAttempt proxy (attemptOutcome proxy proxy_type (oracle k)) st)
      simp only [applyAttempt, List.countP_append] at hrec ⊢
      omega

lemma checkLoop_acc_ge_one (proxy proxy_type : String) (oracle : Nat → ProbeResult)
    (fuel k : Nat) (st : CheckState) (hfuel : 0 < fuel) :
    st.events.countP Event.isAccounting + 1 ≤
      ((checkLoop proxy proxy_type oracle k fuel st).events).countP Event.isAccounting := by
  cases fuel with
  | zero => omega
  | succ n =>
    rw [checkLoop_succ]
    have hb := countP_attemptEvents_accounting
      (attemptOutcome proxy proxy_type (oracle k))
      (st.total_proxies_checked + 1)
      (if attemptOutcome proxy proxy_type (oracle k) = AttemptOutcome.success
        then st.good_proxies + 1 else st.good_proxies)
    cases ht : (attemptOutcome proxy proxy_type (oracle k)).isTerminal with
    | true =>
      rw [if_pos rfl]
      simp only [applyAttempt, List.countP_append]
      omega
    | false =>
      simp only [Bool.false_eq_true, if_false]
      have hrec := checkLoop_count_mono proxy proxy_type oracle Event.isAccounting n (k + 1)
        (applyAttempt proxy (attemptOutcome proxy proxy_type (oracle k)) st)
      simp only [applyAttempt, List.countP_append] at hrec ⊢
      omega

lemma checkLoop_total_acc (proxy proxy_type : String) (oracle : Nat → ProbeResult) :
    ∀ fuel k st,
      (checkLoop proxy proxy_type oracle k fuel st).total_proxies_checked +
          st.events.countP Event.isAccounting =
        st.total_proxies_checked +
          ((checkLoop proxy proxy_type oracle k fuel st).events).countP Event.isAccounting := by
  intro fuel
  induction fuel with
  | zero =>
    intro k st
    rw [checkLoop_zero]
    simp [List.countP_append, List.countP_cons, Event.isAccounting]
  | succ n ih =>
    intro k st
    rw [checkLoop_succ]
    have hb := countP_attemptEvents_accounting
      (attemptOutcome proxy proxy_type (oracle k))
      (st.total_proxies_checked + 1)
      (if attemptOutcome proxy proxy_type (oracle k) = AttemptOutcome.success
        then st.good_proxies + 1 else st.good_proxies)
    cases ht : (attemptOutcome proxy proxy_type (oracle k)).isTerminal with
    | true =>
      rw [if_pos rfl]
      simp only [applyAttempt, List.countP_append]
      omega
    | false =>
      simp only [Bool.false_eq_true, if_false]
      have hrec := ih (k + 1)
        (applyAttempt proxy (attemptOutcome proxy proxy_type (oracle k)) st)
      simp only [applyAttempt, List.countP_append] at hrec ⊢
      omega

lemma applyAttempt_total (proxy : String) (o : AttemptOutcome) (st : CheckState) :
    (applyAttempt proxy o st).total_proxies_checked = st.total_proxies_checked + 1 := rfl

lemma applyAttempt_good (proxy : String) (o : AttemptOutcome) (st : CheckState) :
    (applyAttempt proxy o st).good_proxies =
      if o = AttemptOutcome.success then st.good_proxies + 1 else st.good_proxies := rfl

lemma applyAttempt_saved (proxy : String) (o : AttemptOutcome) (st : CheckState) :
    (applyAttempt proxy o st).good_proxy_file =
      if o = AttemptOutcome.success then st.good_proxy_file ++ [proxy]
      else st.good_proxy_file := rfl

lemma applyAttempt_events (proxy : String) (o : AttemptOutcome) (st : CheckState) :
    (applyAttempt proxy o st).events =
      st.events ++ attemptEvents o (st.total_proxies_checked + 1)
        ((applyAttempt proxy o st).good_proxies) := rfl

lemma checkLoop_good_le (proxy proxy_type : String) (oracle : Nat → ProbeResult) :
    ∀ fuel k st,
      (checkLoop proxy proxy_type oracle k fuel st).good_proxies ≤ st.good_proxies + 1 := by
  intro fuel
  induction fuel with
  | zero => intro k st; rw [checkLoop_zero]; exact Nat.le_succ _
  | succ n ih =>
    intro k st
    rw [checkLoop_succ]
    cases ht : (attemptOutcome proxy proxy_type (oracle k)).isTerminal with
    | true =>
      rw [if_pos rfl, applyAttempt_good]
      split <;> omega
    | false =>
      simp only [Bool.false_eq_true, if_false]
      have hrec := ih (k + 1)
        (applyAttempt proxy (attemptOutcome proxy proxy_type (oracle k)) st)
      have hgood : (applyAttempt proxy (attemptOutcome proxy proxy_type (oracle k)) st).good_proxies
          = st.good_proxies := by
        rw [applyAttempt_good, if_neg (not_success_of_not_terminal ht)]
      omega

lemma checkLoop_good_mono (proxy proxy_type : String) (oracle : Nat → ProbeResult) :
    ∀ fuel k st,
      st.good_proxies ≤ (checkLoop proxy proxy_type oracle k fuel st).good_proxies := by
  intro fuel
  induction fuel with
  | zero => intro k st; rw [checkLoop_zero]
  | succ n ih =>
    intro k st
    rw [checkLoop_succ]
    cases ht : (attemptOutcome proxy proxy_type (oracle k)).isTerminal with
    | true =>
      rw [if_pos rfl, applyAttempt_good]
      split <;> omega
    | false =>
      simp only [Bool.false_eq_true, if_false]
      have hrec := ih (k + 1)
        (applyAttempt proxy (attemptOutcome proxy proxy_type (oracle k)) st)
      have hgood : (applyAttempt proxy (attemptOutcome proxy proxy_type (oracle k)) st).good_proxies
          = st.good_proxies := by
        rw [applyAttempt_good, if_neg (not_success_of_not_terminal ht)]
      omega

lemma checkLoop_acq_acc (proxy proxy_type : String) (oracle : Nat → ProbeResult) :
    ∀ fuel k st,
      ((checkLoop proxy proxy_type oracle k fuel st).events).countP Event.isAcquire +
          st.events.countP Event.isAccounting =
        ((checkLoop proxy proxy_type oracle k fuel st).events).countP Event.isAccounting +
          st.events.countP Event.isAcquire := by
  intro fuel
  induction fuel with
  | zero =>
    intro k st
    rw [checkLoop_zero]
    simp only [List.countP_append, List.countP_cons, List.countP_nil,
      Event.isAcquire, Event.isAccounting]
    omega
  | succ n ih =>
    intro k st
    rw [checkLoop_succ]
    have hb1 := countP_attemptEvents_acquire (attemptOutcome proxy proxy_type (oracle k))
      (st.total_proxies_checked + 1)
      ((applyAttempt proxy (attemptOutcome proxy proxy_type (oracle k)) st).good_proxies)
    have hb2 := countP_attemptEvents_accounting (attemptOutcome proxy proxy_type (oracle k))
      (st.total_proxies_checked + 1)
      ((applyAttempt proxy (attemptOutcome proxy proxy_type (oracle k)) st).good_proxies)
    cases ht : (attemptOutcome proxy proxy_type (oracle k)).isTerminal with
    | true =>
      rw [if_pos rfl, applyAttempt_events, List.countP_append, List.countP_append]
      omega
    | false =>
      simp only [Bool.false_eq_true, if_false]
      have hrec := ih (k + 1)
        (applyAttempt proxy (attemptOutcome proxy proxy_type (oracle k)) st)
      rw [applyAttempt_events, List.countP_append, List.countP_append] at hrec
      omega

lemma checkLoop_probe_acc (proxy proxy_type : String) (oracle : Nat → ProbeResult) :
    ∀ fuel k st,
      ((checkLoop proxy proxy_type oracle k fuel st).events).countP Event.isProbe +
          st.events.countP Event.isAccounting ≤
        ((checkLoop proxy proxy_type oracle k fuel st).events).countP Event.isAccounting +
          st.events.countP Event.isProbe := by
  intro fuel
  induction fuel with
  | zero =>
    intro k st
    rw [checkLoop_zero]
    simp only [List.countP_append, List.countP_cons, List.countP_nil,
      Event.isProbe, Event.isAccounting]
    omega
  | succ n ih =>
    intro k st
    rw [checkLoop_succ]
    have hb1 := countP_attemptEvents_probe_le (attemptOutcome proxy proxy_type (oracle k))
      (st.total_proxies_checked + 1)
      ((applyAttempt proxy (attemptOutcome proxy proxy_type (oracle k)) st).good_proxies)
    have hb2 := countP_attemptEvents_accounting (attemptOutcome proxy proxy_type (oracle k))
      (st.total_proxies_checked + 1)
      ((applyAttempt proxy (attemptOutcome proxy proxy_type (oracle k)) st).good_proxies)
    cases ht : (attemptOutcome proxy proxy_type (oracle k)).isTerminal with
    | true =>
      rw [if_pos rfl, applyAttempt_events, List.countP_append, List.countP_append]
      omega
    | false =>
      simp only [Bool.false_eq_true, if_false]
      have hrec := ih (k + 1)
        (applyAttempt proxy (attemptOutcome proxy proxy_type (oracle k)) st)
      rw [applyAttempt_events, List.countP_append, List.countP_append] at hrec
      omega

lemma checkLoop_accounting_le (proxy proxy_type : String) (oracle : Nat → ProbeResult) :
    ∀ fuel k st, st.good_proxies ≤ st.total_proxies_checked →
      (∀ t g, Event.accounting t g ∈ st.events → g ≤ t) →
      ∀ t g, Event.accounting t g ∈ ((checkLoop proxy proxy_type oracle k fuel st).events) →
        g ≤ t := by
  intro fuel
  induction fuel with
  | zero =>
    intro k st h1 h2 t g hmem
    rw [checkLoop_zero] at hmem
    rcases List.mem_append.mp hmem with h | h
    · exact h2 t g h
    · simp at h
  | succ n ih =>
    intro k st h1 h2 t g hmem
    rw [checkLoop_succ] at hmem
    have hgle : (applyAttempt proxy (attemptOutcome proxy proxy_type (oracle k)) st).good_proxies
        ≤ st.good_proxies + 1 := by
      rw [applyAttempt_good]; split <;> omega
    have hblock : ∀ t g,
        Event.accounting t g ∈
          (applyAttempt proxy (attemptOutcome proxy proxy_type (oracle k)) st).events →
        g ≤ t := by
      intro t g hm
      rw [applyAttempt_events] at hm
      rcases List.mem_append.mp hm with h | h
      · exact h2 t g h
      · obtain ⟨hteq, hgeq⟩ := accounting_mem_attemptEvents h
        subst hteq; subst hgeq
        omega
    cases ht : (attemptOutcome proxy proxy_type (oracle k)).isTerminal with
    | true =>
      rw [ht, if_pos rfl] at hmem
      exact hblock t g hmem
    | false =>
      rw [ht] at hmem
      simp only [Bool.false_eq_true, if_false] at hmem
      refine ih (k + 1) _ ?_ hblock t g hmem
      rw [applyAttempt_total]
      omega

lemma checkLoop_saved_mem (proxy proxy_type : String) (oracle : Nat → ProbeResult) :
    ∀ fuel k st l, l ∈ ((checkLoop proxy proxy_type oracle k fuel st).good_proxy_file) →
      l ∈ st.good_proxy_file ∨ l = proxy := by
  intro fuel
  induction fuel with
  | zero =>
    intro k st l hm
    rw [checkLoop_zero] at hm
    exact Or.inl hm
  | succ n ih =>
    intro k st l hm
    rw [checkLoop_succ] at hm
    have hblock : ∀ l,
        l ∈ (applyAttempt proxy (attemptOutcome proxy proxy_type (oracle k)) st).good_proxy_file →
        l ∈ st.good_proxy_file ∨ l = proxy := by
      intro l h
      rw [applyAttempt_saved] at h
      by_cases ho : attemptOutcome proxy proxy_type (oracle k) = AttemptOutcome.success
      · rw [if_pos ho] at h
        rcases List.mem_append.mp h with h | h
        · exact Or.inl h
        · exact Or.inr (List.mem_singleton.mp h)
      · rw [if_neg ho] at h
        exact Or.inl h
    cases ht : (attemptOutcome proxy proxy_type (oracle k)).isTerminal with
    | true =>
      rw [ht, if_pos rfl] at hm
      exact hblock l hm
    | false =>
      rw [ht] at hm
      simp only [Bool.false_eq_true, if_false] at hm
      rcases ih (k + 1) _ l hm with h | h
      · exact hblock l h
      · exact Or.inr h

lemma checkLoop_giveUp_saved (proxy proxy_type : String) (oracle : Nat → ProbeResult) :
    ∀ fuel k st, Event.giveUp ∈ ((checkLoop proxy proxy_type oracle k fuel st).events) →
      Event.giveUp ∈ st.events ∨
        (checkLoop proxy proxy_type oracle k fuel st).good_proxy_file = st.good_proxy_file := by
  intro fuel
  induction fuel with
  | zero => intro k st _; exact Or.inr rfl
  | succ n ih =>
    intro k st hm
    rw [checkLoop_succ] at hm ⊢
    cases ht : (attemptOutcome proxy proxy_type (oracle k)).isTerminal with
    | true =>
      rw [ht, if_pos rfl] at hm
      rw [if_pos rfl]
      rw [applyAttempt_events] at hm
      rcases List.mem_append.mp hm with h | h
      · exact Or.inl h
      · exact absurd h (giveUp_not_mem_attemptEvents _ _ _)
    | false =>
      rw [ht] at hm
      simp only [Bool.false_eq_true, if_false] at hm ⊢
      rcases ih (k + 1) _ hm with h | h
      · rw [applyAttempt_events] at h
        rcases List.mem_append.mp h with h | h
        · exact Or.inl h
        · exact absurd h (giveUp_not_mem_attemptEvents _ _ _)
      · rw [h, applyAttempt_saved,
          if_neg (not_success_of_not_terminal ht)]
        exact Or.inr rfl

lemma checkLoop_sleepsUnlocked (proxy proxy_type : String) (oracle : Nat → ProbeResult) :
    ∀ fuel k st, sleepsUnlocked st.events 0 = true → depthAfter st.events 0 = 0 →
      sleepsUnlocked ((checkLoop proxy proxy_type oracle k fuel st).events) 0 = true := by
  intro fuel
  induction fuel with
  | zero =>
    intro k st h1 h2
    rw [checkLoop_zero]
    show sleepsUnlocked (st.events ++ [Event.giveUp]) 0 = true
    rw [sleepsUnlocked_append, h1, h2]
    rfl
  | succ n ih =>
    intro k st h1 h2
    rw [checkLoop_succ]
    have h1' : sleepsUnlocked
        ((applyAttempt proxy (attemptOutcome proxy proxy_type (oracle k)) st).events) 0 = true := by
      rw [applyAttempt_events, sleepsUnlocked_append, h1, h2,
        sleepsUnlocked_attemptEvents]
      rfl
    have h2' : depthAfter
        ((applyAttempt proxy (attemptOutcome proxy proxy_type (oracle k)) st).events) 0 = 0 := by
      rw [applyAttempt_events, depthAfter_append, h2, depthAfter_attemptEvents]
    cases ht : (attemptOutcome proxy proxy_type (oracle k)).isTerminal with
    | true =>
      rw [if_pos rfl]
      exact h1'
    | false =>
      simp only [Bool.false_eq_true, if_false]
      exact ih (k + 1) _ h1' h2'

lemma countP_attemptEvents_probe_err (e : ErrKind) (t g : Nat) :
    (attemptEvents (AttemptOutcome.errRetry e) t g).countP Event.isProbe =
      if e.probeReached then 1 else 0 := by
  cases he : e.probeReached <;>
    simp [attemptEvents, he, List.countP_cons, Event.isProbe]

/-- A run in which every attempt raises a retried exception: the loop burns
its whole budget, `total_proxies_checked` grows by `fuel`, `good_proxies`
and the output file do not change, there is one accounting and one sleep per
attempt, exactly one give-up report, and a probe per attempt exactly when
the exceptions come from the network call (`b = true`) as opposed to the
pre-probe parse/dispatch steps (`b = false`). -/
lemma checkLoop_allRetry (proxy proxy_type : String) (oracle : Nat → ProbeResult) (b : Bool)
    (h : ∀ k, ∃ e, attemptOutcome proxy proxy_type (oracle k) = AttemptOutcome.errRetry e ∧
      e.probeReached = b) :
    ∀ fuel k st,
      (checkLoop proxy proxy_type oracle k fuel st).total_proxies_checked =
          st.total_proxies_checked + fuel ∧
      (checkLoop proxy proxy_type oracle k fuel st).good_proxies = st.good_proxies ∧
      (checkLoop proxy proxy_type oracle k fuel st).good_proxy_file = st.good_proxy_file ∧
      ((checkLoop proxy proxy_type oracle k fuel st).events).countP Event.isAccounting =
          st.events.countP Event.isAccounting + fuel ∧
      ((checkLoop proxy proxy_type oracle k fuel st).events).countP Event.isSleep =
          st.events.countP Event.isSleep + fuel ∧
      ((checkLoop proxy proxy_type oracle k fuel st).events).countP Event.isGiveUp =
          st.events.countP Event.isGiveUp + 1 ∧
      ((checkLoop proxy proxy_type oracle k fuel st).events).countP Event.isProbe =
          st.events.countP Event.isProbe + (if b then fuel else 0) := by
  intro fuel
  induction fuel with
  | zero =>
    intro k st
    rw [checkLoop_zero]
    refine ⟨rfl, rfl, rfl, ?_, ?_, ?_, ?_⟩ <;>
      cases b <;>
        simp [List.countP_append, List.countP_cons, Event.isAccounting, Event.isSleep,
          Event.isGiveUp, Event.isProbe]
  | succ n ih =>
    intro k st
    obtain ⟨e, he, hbr⟩ := h k
    rw [checkLoop_succ, he]
    simp only [AttemptOutcome.isTerminal, Bool.false_eq_true, if_false]
    obtain ⟨iht, ihg, ihs, ihacc, ihsl, ihgu, ihpr⟩ :=
      ih (k + 1) (applyAttempt proxy (AttemptOutcome.errRetry e) st)
    have hne : AttemptOutcome.errRetry e ≠ AttemptOutcome.success := by simp
    refine ⟨?_, ?_, ?_, ?_, ?_, ?_, ?_⟩
    · rw [iht, applyAttempt_total]; omega
    · rw [ihg, applyAttempt_good, if_neg hne]
    · rw [ihs, applyAttempt_saved, if_neg hne]
    · rw [ihacc, applyAttempt_events, List.countP_append,
        countP_attemptEvents_accounting]
      omega
    · rw [ihsl, applyAttempt_events, List.countP_append, countP_attemptEvents_sleep]
      simp only [AttemptOutcome.isTerminal, Bool.false_eq_true, if_false]
      omega
    · rw [ihgu, applyAttempt_events, List.countP_append, countP_attemptEvents_giveUp]
    · rw [ihpr, applyAttempt_events, List.countP_append, countP_attemptEvents_probe_err,
        hbr]
      cases b <;> simp_arith

/-! ## Helper lemmas about the file reader -/

lemma read_proxy_file_lines (lines : List String) :
    read_proxy_file (FileOutcome.lines lines) =
      (if ((lines.map pyStrip).filter validProxyLine).isEmpty
        then Except.error ReadError.emptyOrInvalid
        else Except.ok ((lines.map pyStrip).filter validProxyLine).dedup) := rfl

lemma read_proxy_file_ok {lines ps : List String}
    (h : read_proxy_file (FileOutcome.lines lines) = Except.ok ps) :
    ps = ((lines.map pyStrip).filter validProxyLine).dedup := by
  rw [read_proxy_file_lines] at h
  by_cases hemp : ((lines.map pyStrip).filter validProxyLine).isEmpty
  · rw [if_pos hemp] at h
    cases h
  · rw [if_neg hemp] at h
    injection h with h
    exact h.symm

lemma mem_read_proxy_file {lines ps : List String} {p : String}
    (h : read_proxy_file (FileOutcome.lines lines) = Except.ok ps) (hp : p ∈ ps) :
    validProxyLine p = true ∧ ∃ l, l ∈ lines ∧ pyStrip l = p := by
  rw [read_proxy_file_ok h] at hp
  have hp' := List.mem_dedup.mp hp
  have hfil := List.mem_filter.mp hp'
  refine ⟨hfil.2, ?_⟩
  obtain ⟨l, hl, hlp⟩ := List.mem_map.mp hfil.1
  exact ⟨l, hl, hlp⟩

lemma validProxyLine_empty : validProxyLine "" = false := by decide

/-! ## Classifying one attempt under specific scenarios -/

lemma attemptOutcome_timeout (proxy proxy_type : String)
    (hsplit : ¬ (pySplit ':' proxy).length < 2)
    (τ : AioProxyType) (hτ : aioProxyTypeOf proxy_type = some τ) :
    attemptOutcome proxy proxy_type ProbeResult.timeoutError =
      AttemptOutcome.errRetry ErrKind.timeoutError := by
  unfold attemptOutcome
  rw [if_neg hsplit, hτ]

lemma attemptOutcome_badStatus (proxy proxy_type : String) (c : Nat)
    (hsplit : ¬ (pySplit ':' proxy).length < 2)
    (τ : AioProxyType) (hτ : aioProxyTypeOf proxy_type = some τ) (hc : c ≠ 200) :
    attemptOutcome proxy proxy_type (ProbeResult.status c) =
      AttemptOutcome.badStatus c := by
  unfold attemptOutcome
  rw [if_neg hsplit, hτ]
  simp [hc]

lemma attemptOutcome_invalidType (proxy proxy_type : String)
    (hnone : aioProxyTypeOf proxy_type = none) (res : ProbeResult) :
    ∃ e, attemptOutcome proxy proxy_type res = AttemptOutcome.errRetry e ∧
      e.probeReached = false := by
  by_cases hsp : (pySplit ':' proxy).length < 2
  · refine ⟨ErrKind.indexError, ?_, rfl⟩
    unfold attemptOutcome
    rw [if_pos hsp]
  · refine ⟨ErrKind.invalidType, ?_, rfl⟩
    unfold attemptOutcome
    rw [if_neg hsp, hnone]

/-- A run whose very first attempt gets a non-200 status terminates at that
attempt: the loop body executes `return` right after printing `[FAILURE]`
(src/main.py lines 158-161), with no sleep and no retry. -/
lemma check_proxy_badStatus (cfg : Config) (proxy proxy_type : String)
    (oracle : Nat → ProbeResult) (c : Nat)
    (hsplit : ¬ (pySplit ':' proxy).length < 2)
    (τ : AioProxyType) (hτ : aioProxyTypeOf proxy_type = some τ)
    (hstatus : oracle 0 = ProbeResult.status c) (hc : c ≠ 200) :
    check_proxy cfg proxy proxy_type oracle =
      applyAttempt proxy (AttemptOutcome.badStatus c) initState := by
  have hout : attemptOutcome proxy proxy_type (oracle 0) = AttemptOutcome.badStatus c := by
    rw [hstatus]
    exact attemptOutcome_badStatus proxy proxy_type c hsplit τ hτ hc
  unfold check_proxy
  rw [checkLoop_succ, hout]
  simp [AttemptOutcome.isTerminal]

lemma valid_count_le (lines : List String) :
    ((lines.map pyStrip).filter validProxyLine).length ≤
      (lines.filter (fun l => !(pyStrip l == ""))).length := by
  induction lines with
  | nil => simp
  | cons l rest ih =>
    simp only [List.map_cons, List.filter_cons]
    by_cases hv : validProxyLine (pyStrip l) = true
    · have hne : (!(pyStrip l == "")) = true := by
        cases hb : (pyStrip l == "")
        · rfl
        · exfalso
          have hs : pyStrip l = "" := eq_of_beq hb
          rw [hs, validProxyLine_empty] at hv
          exact Bool.false_ne_true hv
      rw [if_pos hv, if_pos hne]
      simpa using ih
    · rw [if_neg hv]
      cases hb : (!(pyStrip l == ""))
      · simp only [Bool.false_eq_true, if_false]
        exact ih
      · rw [if_pos rfl]
        simp only [List.length_cons]
        omega

lemma initState_events : initState.events = [] := rfl

lemma initState_total : initState.total_proxies_checked = 0 := rfl

lemma initState_good : initState.good_proxies = 0 := rfl

lemma initState_saved : initState.good_proxy_file = [] := rfl

/-! ## The claims -/

/-- Claim C1, as stated, is false at a concrete input: with `max_retry = 1`
and a descriptor that times out on every attempt, `check_proxy` runs the
`finally` block once per attempt, so `total_proxies_checked` ends at 2, not
1, for this single descriptor. -/
theorem c1_counterexample :
    (check_proxy ⟨5, 1, 3⟩ "1.2.3.4:8080" "HTTP"
      (fun _ => ProbeResult.timeoutError)).total_proxies_checked = 2 ∧
    (check_proxy ⟨5, 1, 3⟩ "1.2.3.4:8080" "HTTP"
      (fun _ => ProbeResult.timeoutError)).total_proxies_checked ≠ 1 := by
  constructor
  · decide
  · decide

/-- Claim C1, amended: over one descriptor's whole attempt sequence,
`total_proxies_checked` increases by exactly the number of attempts — it is
incremented once per attempt by the `finally` block, including mid-retry
attempts, not once per descriptor — where the number of attempts is between
1 and `max_retry + 1`; `good_proxies` increases by 0 or 1. -/
theorem c1_spec (cfg : Config) (proxy proxy_type : String)
    (oracle : Nat → ProbeResult) :
    (check_proxy cfg proxy proxy_type oracle).total_proxies_checked =
      numAttempts (check_proxy cfg proxy proxy_type oracle) ∧
    1 ≤ numAttempts (check_proxy cfg proxy proxy_type oracle) ∧
    numAttempts (check_proxy cfg proxy proxy_type oracle) ≤ cfg.max_retry + 1 ∧
    (check_proxy cfg proxy proxy_type oracle).good_proxies ≤ 1 := by
  have h1 := checkLoop_total_acc proxy proxy_type oracle (cfg.max_retry + 1) 0 initState
  have h2 := checkLoop_acc_ge_one proxy proxy_type oracle (cfg.max_retry + 1) 0 initState
    (Nat.succ_pos _)
  have h3 := checkLoop_count_le proxy proxy_type oracle Event.isAccounting
    (fun o t g => (countP_attemptEvents_accounting o t g).le) rfl
    (cfg.max_retry + 1) 0 initState
  have h4 := checkLoop_good_le proxy proxy_type oracle (cfg.max_retry + 1) 0 initState
  rw [initState_events, List.countP_nil] at h1 h2 h3
  rw [initState_total] at h1
  rw [initState_good] at h4
  simp only [numAttempts, check_proxy]
  omega

/-- Claim C2, as stated, is false at a concrete input: for the unknown
protocol tag "FTP" the `ValueError("Invalid proxy type")` is caught by the
`except (aiohttp.ClientError, ValueError)` clause, which sleeps and retries,
so with `max_retry = 1` the descriptor goes through 2 attempts and 2 retry
sleeps instead of failing fast on the first attempt. -/
theorem c2_counterexample :
    numAttempts (check_proxy ⟨5, 1, 3⟩ "1.2.3.4:8080" "FTP"
      (fun _ => ProbeResult.status 200)) = 2 ∧
    numSleeps (check_proxy ⟨5, 1, 3⟩ "1.2.3.4:8080" "FTP"
      (fun _ => ProbeResult.status 200)) = 2 ∧
    numAttempts (check_proxy ⟨5, 1, 3⟩ "1.2.3.4:8080" "FTP"
      (fun _ => ProbeResult.status 200)) ≠ 1 := by
  refine ⟨?_, ?_, ?_⟩ <;> decide

/-- Claim C2, amended: an unrecognized protocol tag is NOT a fail-fast
error.  The raised `ValueError` is caught by the same handler as transient
client errors, so the descriptor is retried with the full budget: exactly
`max_retry + 1` attempts, each followed by a retry sleep, no network probe
ever issued, one final give-up report, and nothing counted good or saved. -/
theorem c2_spec (cfg : Config) (proxy proxy_type : String)
    (oracle : Nat → ProbeResult) (hnone : aioProxyTypeOf proxy_type = none) :
    numAttempts (check_proxy cfg proxy proxy_type oracle) = cfg.max_retry + 1 ∧
    numSleeps (check_proxy cfg proxy proxy_type oracle) = cfg.max_retry + 1 ∧
    numProbes (check_proxy cfg proxy proxy_type oracle) = 0 ∧
    numGiveUps (check_proxy cfg proxy proxy_type oracle) = 1 ∧
    (check_proxy cfg proxy proxy_type oracle).good_proxies = 0 ∧
    (check_proxy cfg proxy proxy_type oracle).good_proxy_file = [] := by
  obtain ⟨ht, hg, hs, hacc, hsl, hgu, hpr⟩ := checkLoop_allRetry proxy proxy_type oracle false
    (fun k => attemptOutcome_invalidType proxy proxy_type hnone (oracle k))
    (cfg.max_retry + 1) 0 initState
  rw [initState_events, List.countP_nil] at hacc hsl hgu hpr
  rw [initState_good] at hg
  rw [initState_saved] at hs
  simp only [numAttempts, numSleeps, numProbes, numGiveUps, check_proxy]
  refine ⟨?_, ?_, ?_, ?_, ?_, ?_⟩
  · omega
  · omega
  · simpa using hpr
  · omega
  · exact hg
  · exact hs

/-- Witness for C2's amended theorem at a concrete input: proxy type "FTP",
`max_retry = 1`, so the descriptor is attempted twice. -/
theorem c2_witness :
    numAttempts (check_proxy ⟨5, 1, 3⟩ "1.2.3.4:8080" "FTP"
      (fun _ => ProbeResult.status 200)) = 2 :=
  (c2_spec ⟨5, 1, 3⟩ "1.2.3.4:8080" "FTP" (fun _ => ProbeResult.status 200)
    (by decide)).1

/-- Claim C3, as stated, is false at a concrete input: an attempt whose
HTTP response status is 403 hits the `return` after the status check, so the
descriptor's sequence terminates on the first non-200 response — there is no
retry sleep and no second attempt even though the retry budget would allow
one. -/
theorem c3_counterexample :
    numSleeps (check_proxy ⟨5, 1, 3⟩ "1.2.3.4:8080" "HTTP"
      (fun _ => ProbeResult.status 403)) = 0 ∧
    numAttempts (check_proxy ⟨5, 1, 3⟩ "1.2.3.4:8080" "HTTP"
      (fun _ => ProbeResult.status 403)) = 1 ∧
    ¬ 2 ≤ numAttempts (check_proxy ⟨5, 1, 3⟩ "1.2.3.4:8080" "HTTP"
      (fun _ => ProbeResult.status 403)) := by
  refine ⟨?_, ?_, ?_⟩ <;> decide

/-- Claim C3, amended: a probe attempt whose HTTP response status is not 200
is a TERMINAL failure, not a retryable one: `check_proxy` prints `[FAILURE]`
and returns immediately, with no retry sleep, no further attempt, no
give-up report, and nothing counted good or saved.  Only exceptions
(timeout, client error, invalid type, other) are retried. -/
theorem c3_spec (cfg : Config) (proxy proxy_type : String)
    (oracle : Nat → ProbeResult) (c : Nat)
    (hsplit : ¬ (pySplit ':' proxy).length < 2)
    (τ : AioProxyType) (hτ : aioProxyTypeOf proxy_type = some τ)
    (hstatus : oracle 0 = ProbeResult.status c) (hc : c ≠ 200) :
    numAttempts (check_proxy cfg proxy proxy_type oracle) = 1 ∧
    numSleeps (check_proxy cfg proxy proxy_type oracle) = 0 ∧
    numGiveUps (check_proxy cfg proxy proxy_type oracle) = 0 ∧
    (check_proxy cfg proxy proxy_type oracle).good_proxies = 0 ∧
    (check_proxy cfg proxy proxy_type oracle).good_proxy_file = [] := by
  rw [check_proxy_badStatus cfg proxy proxy_type oracle c hsplit τ hτ hstatus hc]
  have hne : AttemptOutcome.badStatus c ≠ AttemptOutcome.success := by simp
  refine ⟨?_, ?_, ?_, ?_, ?_⟩
  · rw [numAttempts, applyAttempt_events, initState_events, List.nil_append,
      countP_attemptEvents_accounting]
  · rw [numSleeps, applyAttempt_events, initState_events, List.nil_append,
      countP_attemptEvents_sleep]
    simp [AttemptOutcome.isTerminal]
  · rw [numGiveUps, applyAttempt_events, initState_events, List.nil_append,
      countP_attemptEvents_giveUp]
  · rw [applyAttempt_good, if_neg hne, initState_good]
  · rw [applyAttempt_saved, if_neg hne, initState_saved]

/-- Witness for C3's amended theorem at a concrete input: a 403 response on
the first attempt ends the sequence after exactly one attempt. -/
theorem c3_witness :
    numAttempts (check_proxy ⟨5, 1, 3⟩ "1.2.3.4:8080" "HTTP"
      (fun _ => ProbeResult.status 403)) = 1 :=
  (c3_spec ⟨5, 1, 3⟩ "1.2.3.4:8080" "HTTP" (fun _ => ProbeResult.status 403)
    403 (by decide) AioProxyType.HTTP (by decide) rfl (by decide)).1

/-- Claim C4: with `max_retry = 1`, a well-formed descriptor whose every
attempt times out produces exactly 2 network probes and exactly 1 terminal
give-up report; and for every configuration and input whatsoever, the
number of probes and of loop attempts never exceeds `max_retry + 1`. -/
theorem c4_spec (t d : Nat) (proxy proxy_type : String)
    (oracle : Nat → ProbeResult) (τ : AioProxyType)
    (hsplit : ¬ (pySplit ':' proxy).length < 2)
    (hτ : aioProxyTypeOf proxy_type = some τ)
    (htimeout : ∀ k, oracle k = ProbeResult.timeoutError) :
    numProbes (check_proxy ⟨t, 1, d⟩ proxy proxy_type oracle) = 2 ∧
    numAttempts (check_proxy ⟨t, 1, d⟩ proxy proxy_type oracle) = 2 ∧
    numGiveUps (check_proxy ⟨t, 1, d⟩ proxy proxy_type oracle) = 1 ∧
    (∀ (cfg : Config) (p pt : String) (o : Nat → ProbeResult),
      numProbes (check_proxy cfg p pt o) ≤ cfg.max_retry + 1 ∧
      numAttempts (check_proxy cfg p pt o) ≤ cfg.max_retry + 1) := by
  have hall : ∀ k, ∃ e,
      attemptOutcome proxy proxy_type (oracle k) = AttemptOutcome.errRetry e ∧
        e.probeReached = true := by
    intro k
    refine ⟨ErrKind.timeoutError, ?_, rfl⟩
    rw [htimeout k]
    exact attemptOutcome_timeout proxy proxy_type hsplit τ hτ
  obtain ⟨ht, hg, hs, hacc, hsl, hgu, hpr⟩ :=
    checkLoop_allRetry proxy proxy_type oracle true hall 2 0 initState
  rw [initState_events, List.countP_nil] at hacc hgu hpr
  refine ⟨?_, ?_, ?_, ?_⟩
  · simpa [numProbes, check_proxy] using hpr
  · simpa [numAttempts, check_proxy] using hacc
  · simpa [numGiveUps, check_proxy] using hgu
  · intro cfg p pt o
    constructor
    · have hb := checkLoop_probe_acc p pt o (cfg.max_retry + 1) 0 initState
      have hle := checkLoop_count_le p pt o Event.isAccounting
        (fun o' t' g' => (countP_attemptEvents_accounting o' t' g').le) rfl
        (cfg.max_retry + 1) 0 initState
      simp only [initState_events, List.countP_nil] at hb hle
      simp only [numProbes, check_proxy]
      omega
    · have hle := checkLoop_count_le p pt o Event.isAccounting
        (fun o' t' g' => (countP_attemptEvents_accounting o' t' g').le) rfl
        (cfg.max_retry + 1) 0 initState
      rw [initState_events, List.countP_nil] at hle
      simp only [numAttempts, check_proxy]
      omega

/-- Witness for C4 at a concrete input: the default configuration
(`request_timeout = 5`, `max_retry = 1`, `retry_delay = 3`) and a descriptor
that always times out yield exactly 2 probes. -/
theorem c4_witness :
    numProbes (check_proxy ⟨5, 1, 3⟩ "1.2.3.4:8080" "HTTP"
      (fun _ => ProbeResult.timeoutError)) = 2 :=
  (c4_spec 5 3 "1.2.3.4:8080" "HTTP" (fun _ => ProbeResult.timeoutError)
    AioProxyType.HTTP (by decide) (by decide) (fun _ => rfl)).1

/-- Claim C7, as stated, is false at a concrete input: in the
always-timeout run the semaphore permit is released when the attempt's
`async with` block unwinds — BEFORE the `retry_delay` sleep — and a fresh
permit is acquired for the second attempt, as the explicit event trace
shows (release precedes sleepRetry, and acquire appears twice). -/
theorem c7_counterexample :
    numAcquires (check_proxy ⟨5, 1, 3⟩ "1.2.3.4:8080" "HTTP"
      (fun _ => ProbeResult.timeoutError)) = 2 ∧
    permitHeldContinuously (check_proxy ⟨5, 1, 3⟩ "1.2.3.4:8080" "HTTP"
      (fun _ => ProbeResult.timeoutError)).events = false ∧
    (check_proxy ⟨5, 1, 3⟩ "1.2.3.4:8080" "HTTP"
      (fun _ => ProbeResult.timeoutError)).events =
      [Event.acquire, Event.probe, Event.release, Event.reportFailure,
        Event.sleepRetry, Event.accounting 1 0,
       Event.acquire, Event.probe, Event.release, Event.reportFailure,
        Event.sleepRetry, Event.accounting 2 0,
       Event.giveUp] := by
  refine ⟨?_, ?_, ?_⟩ <;> decide

/-- Claim C7, amended: the permit is NOT held across the retry sequence.
`check_proxy` acquires the semaphore anew inside every loop iteration and
the permit is released when that iteration's `async with` exits, so every
`retry_delay` sleep happens with the permit free (depth zero in the trace)
and the number of acquisitions equals the number of attempts, not one per
descriptor. -/
theorem c7_spec (cfg : Config) (proxy proxy_type : String)
    (oracle : Nat → ProbeResult) :
    sleepsUnlocked (check_proxy cfg proxy proxy_type oracle).events 0 = true ∧
    numAcquires (check_proxy cfg proxy proxy_type oracle) =
      numAttempts (check_proxy cfg proxy proxy_type oracle) := by
  constructor
  · exact checkLoop_sleepsUnlocked proxy proxy_type oracle (cfg.max_retry + 1) 0
      initState rfl rfl
  · have h := checkLoop_acq_acc proxy proxy_type oracle (cfg.max_retry + 1) 0 initState
    simp only [initState_events, List.countP_nil] at h
    simp only [numAcquires, numAttempts, check_proxy]
    omega

/-- Claim C8, as stated, is false: the rate computation divides
unconditionally, so at elapsed time zero it produces a `ZeroDivisionError`
(an exception propagating out of the `finally` block), not a reported rate
of 0 and not any in-band undefined marker. -/
theorem c8_counterexample :
    proxies_checked_per_minute 5 0 =
      Except.error "ZeroDivisionError: float division by zero" ∧
    proxies_checked_per_minute 5 0 ≠ Except.ok 0 := by
  constructor
  · unfold proxies_checked_per_minute
    rw [if_pos (by norm_num)]
  · intro h
    unfold proxies_checked_per_minute at h
    rw [if_pos (by norm_num)] at h
    exact Except.noConfusion h

/-- Claim C8, amended: `round(total / (elapsed/60))` is computed by an
unguarded division.  For every nonzero elapsed time it reports the rounded
rate, and at elapsed time exactly zero it raises `ZeroDivisionError`
instead of reporting 0 or an undefined marker. -/
theorem c8_spec (total : Nat) (e : ℚ) (he : e ≠ 0) :
    proxies_checked_per_minute total e =
      Except.ok (pyRound ((total : ℚ) / (e / 60))) ∧
    proxies_checked_per_minute total 0 =
      Except.error "ZeroDivisionError: float division by zero" := by
  constructor
  · unfold proxies_checked_per_minute
    rw [if_neg]
    intro h0
    exact he (by simpa using h0)
  · unfold proxies_checked_per_minute
    rw [if_pos (by norm_num)]

/-- Witness for C8's amended theorem at a concrete input: 5 proxies checked
in 60 seconds is a rate of 5 per minute. -/
theorem c8_witness : proxies_checked_per_minute 5 60 = Except.ok 5 := by
  have h := (c8_spec 5 60 (by norm_num)).1
  rw [h]
  norm_num [pyRound]

/-- Claim C5: `read_proxy_file` keeps exactly the stripped lines that split
on a colon into exactly 2 or exactly 4 fields, deduplicates the survivors,
and returns a list with no duplicates whose size is at most the number of
raw non-blank lines; on the four example lines the result has exactly 2
elements. -/
theorem c5_spec (lines ps : List String)
    (h : read_proxy_file (FileOutcome.lines lines) = Except.ok ps) :
    ps.Nodup ∧
    (∀ p, p ∈ ps ↔ (validProxyLine p = true ∧ ∃ l, l ∈ lines ∧ pyStrip l = p)) ∧
    ps.length ≤ (lines.filter (fun l => !(pyStrip l == ""))).length ∧
    (∃ qs, read_proxy_file
        (FileOutcome.lines
          ["1.2.3.4:8080", "1.2.3.4:8080", "bad-line", "5.6.7.8:1080:user:pass"]) =
          Except.ok qs ∧ qs.length = 2) := by
  have hps := read_proxy_file_ok h
  subst hps
  refine ⟨List.nodup_dedup _, ?_, ?_,
    ⟨["1.2.3.4:8080", "5.6.7.8:1080:user:pass"], by rfl, rfl⟩⟩
  · intro p
    rw [List.mem_dedup, List.mem_filter, List.mem_map]
    constructor
    · rintro ⟨⟨l, hl, hlp⟩, hv⟩
      exact ⟨hv, l, hl, hlp⟩
    · rintro ⟨hv, l, hl, hlp⟩
      exact ⟨⟨l, hl, hlp⟩, hv⟩
  · exact le_trans (List.Sublist.length_le (List.dedup_sublist _)) (valid_count_le lines)

/-- Witness for C5 at the example input: the duplicate line and the
malformed line are dropped, leaving 2 descriptors, no more than the 4
non-blank input lines. -/
theorem c5_witness :
    (["1.2.3.4:8080", "5.6.7.8:1080:user:pass"] : List String).length ≤
      ((["1.2.3.4:8080", "1.2.3.4:8080", "bad-line",
        "5.6.7.8:1080:user:pass"] : List String).filter
          (fun l => !(pyStrip l == ""))).length :=
  (c5_spec ["1.2.3.4:8080", "1.2.3.4:8080", "bad-line", "5.6.7.8:1080:user:pass"]
    ["1.2.3.4:8080", "5.6.7.8:1080:user:pass"] (by rfl)).2.2.1

/-- Claim C6, as stated, is false: `read_proxy_file` does not fail in
exactly two input situations.  Its `except` clauses catch only
`FileNotFoundError` and `ValueError`, so an open/read failure that is
neither — permission denied, a directory path, undecodable bytes —
propagates as a third, unclassified error: it is not the not-found error,
not the empty-or-invalid error, and no descriptor list is returned. -/
theorem c6_counterexample :
    read_proxy_file FileOutcome.otherIOError = Except.error ReadError.uncaught ∧
    ReadError.uncaught ≠ ReadError.notFound ∧
    ReadError.uncaught ≠ ReadError.emptyOrInvalid := by
  refine ⟨rfl, ?_, ?_⟩ <;> decide

/-- Claim C6, amended: `read_proxy_file` CLASSIFIES exactly two failure
situations — a not-found error when the file is missing, and an
empty-or-invalid error exactly when zero valid descriptors survive
parsing — but any other open/read failure (permission denied, a directory
path, undecodable bytes) propagates as a third, uncaught error.  Whenever
the file opens and decodes and at least one line is valid, it returns a
non-empty descriptor list. -/
theorem c6_spec :
    read_proxy_file FileOutcome.missing = Except.error ReadError.notFound ∧
    read_proxy_file FileOutcome.otherIOError = Except.error ReadError.uncaught ∧
    ∀ lines : List String,
      (read_proxy_file (FileOutcome.lines lines) =
          Except.error ReadError.emptyOrInvalid ↔
        (lines.map pyStrip).filter validProxyLine = []) ∧
      (∀ e, read_proxy_file (FileOutcome.lines lines) = Except.error e →
        e = ReadError.emptyOrInvalid) ∧
      (∀ ps, read_proxy_file (FileOutcome.lines lines) = Except.ok ps → ps ≠ []) := by
  refine ⟨rfl, rfl, ?_⟩
  intro lines
  rw [read_proxy_file_lines]
  by_cases hemp : ((lines.map pyStrip).filter validProxyLine).isEmpty
  · rw [if_pos hemp]
    refine ⟨?_, ?_, ?_⟩
    · simp only [List.isEmpty_iff] at hemp
      simp [hemp]
    · intro e he
      injection he with he
      exact he.symm
    · intro ps hps
      exact absurd hps (by simp)
  · rw [if_neg hemp]
    refine ⟨?_, ?_, ?_⟩
    · constructor
      · intro he
        exact absurd he (by simp)
      · intro hnil
        rw [List.isEmpty_iff] at hemp
        exact absurd hnil hemp
    · intro e he
      exact absurd he (by simp)
    · intro ps hps
      injection hps with hps
      subst hps
      rw [List.isEmpty_iff] at hemp
      intro hnil
      rw [List.dedup_eq_nil] at hnil
      exact hemp hnil

/-- Witness for C6 at a concrete input: a file holding the single line
"a:b" parses to a non-empty descriptor list. -/
theorem c6_witness : (["a:b"] : List String) ≠ [] :=
  (c6_spec.2.2 ["a:b"]).2.2 ["a:b"] (by rfl)

/-- Claim C9: every line `save_proxy` writes during a `check_proxy` run of
a descriptor taken from `read_proxy_file`'s output is string-identical to
that descriptor and is accepted by the parser's rule (2 or 4 colon-separated
fields); and a run that ends in the give-up report (retries exhausted)
writes nothing to the output file. -/
theorem c9_spec (cfg : Config) (lines ps : List String)
    (proxy proxy_type : String) (oracle : Nat → ProbeResult)
    (hread : read_proxy_file (FileOutcome.lines lines) = Except.ok ps)
    (hmem : proxy ∈ ps) :
    (∀ l, l ∈ (check_proxy cfg proxy proxy_type oracle).good_proxy_file →
      (l = proxy ∧ validProxyLine l = true)) ∧
    (Event.giveUp ∈ (check_proxy cfg proxy proxy_type oracle).events →
      (check_proxy cfg proxy proxy_type oracle).good_proxy_file = []) := by
  have hval := (mem_read_proxy_file hread hmem).1
  constructor
  · intro l hl
    rcases checkLoop_saved_mem proxy proxy_type oracle (cfg.max_retry + 1) 0 initState
      l hl with hcontra | heq
    · rw [initState_saved] at hcontra
      exact absurd hcontra (List.not_mem_nil l)
    · subst heq
      exact ⟨rfl, hval⟩
  · intro hg
    rcases checkLoop_giveUp_saved proxy proxy_type oracle (cfg.max_retry + 1) 0 initState
      hg with hcontra | heq
    · rw [initState_events] at hcontra
      exact absurd hcontra (List.not_mem_nil _)
    · rw [initState_saved] at heq
      exact heq

/-- Witness for C9 at a concrete input: a descriptor that exhausts its
retries (always times out) leaves the output file empty. -/
theorem c9_witness :
    (check_proxy ⟨5, 1, 3⟩ "1.2.3.4:8080" "HTTP"
      (fun _ => ProbeResult.timeoutError)).good_proxy_file = [] :=
  (c9_spec ⟨5, 1, 3⟩ ["1.2.3.4:8080"] ["1.2.3.4:8080"] "1.2.3.4:8080" "HTTP"
    (fun _ => ProbeResult.timeoutError) (by rfl) (by decide)).2 (by decide)

/-- Claim C10: whenever the `finally` block of `check_proxy` completes an
attempt-accounting step — recorded as an `accounting total good` event in
the trace — the counters it publishes satisfy
`good_proxies ≤ total_proxies_checked`: `good_proxies` is incremented at
most once per attempt and only on the success path, whose `finally` block
also increments `total_proxies_checked`. -/
theorem c10_spec (cfg : Config) (proxy proxy_type : String)
    (oracle : Nat → ProbeResult) (t g : Nat)
    (h : Event.accounting t g ∈ (check_proxy cfg proxy proxy_type oracle).events) :
    g ≤ t := by
  refine checkLoop_accounting_le proxy proxy_type oracle (cfg.max_retry + 1) 0 initState
    ?_ ?_ t g h
  · exact Nat.le_refl 0
  · intro t' g' hm
    rw [initState_events] at hm
    exact absurd hm (List.not_mem_nil _)

/-- Witness for C10 at a concrete input: the success run publishes the
accounting snapshot `total = 1, good = 1`, and indeed `1 ≤ 1`. -/
theorem c10_witness : (1 : Nat) ≤ 1 :=
  c10_spec ⟨5, 1, 3⟩ "1.2.3.4:8080" "HTTP" (fun _ => ProbeResult.status 200)
    1 1 (by decide)

end ProxyChecker
